import Mathlib
set_option maxHeartbeats 1000000

/-!
Shallow embedding of the explicit-synchronization core of the repository:
`src/src/protocols/DRMSyncobj.cpp` (sync points, timeline resources, the
per-surface syncobj adapter) and `src/src/protocols/core/Compositor.cpp`
(the surface commit engine with its in-flight queue).

Machine integers (`uint64_t` timeline points) are modelled as `Nat`; the
code never performs arithmetic on them, only comparisons, so no modular
reduction is needed. Weak references are modelled as integer ids looked up
in an environment of live objects: a dangling weak reference is an id that
is absent from the environment.
-/

/-- a waiter registered on a kernel sync timeline. It fires when the
timeline reaches `value`; `owner` tags the surface-state snapshot (or other
client) that registered the callback. -/
structure SWaiter where
  value : Nat
  owner : Nat
deriving DecidableEq

/-- a kernel sync timeline (`CSyncTimeline`): we model only the observable
part the claims need, its registered waiters. -/
structure STimeline where
  waiters : List SWaiter
deriving DecidableEq

/-- protocol-visible timeline resource (`CDRMSyncobjTimelineResource`):
holds the imported timeline, or `none` when importing failed. -/
structure CDRMSyncobjTimelineResource where
  timeline : Option Nat
deriving DecidableEq

/-- the environment of live objects: timeline resources and timelines by id.
Destroying a resource or timeline removes it from the respective list, which
is how a `CDRMSyncPointState` weak reference expires. -/
structure SyncEnv where
  resources : List (Nat × CDRMSyncobjTimelineResource)
  timelines : List (Nat × STimeline)
deriving DecidableEq

def SyncEnv.resource (env : SyncEnv) (rid : Nat) : Option CDRMSyncobjTimelineResource :=
  (env.resources.find? (fun p => p.1 == rid)).map Prod.snd

def SyncEnv.timelineAt (env : SyncEnv) (tid : Nat) : Option STimeline :=
  (env.timelines.find? (fun p => p.1 == tid)).map Prod.snd

/-- point-wise update of one timeline in an association list. -/
def updTimeline (ts : List (Nat × STimeline)) (tid : Nat) (f : STimeline → STimeline) :
    List (Nat × STimeline) :=
  ts.map (fun p => if p.1 == tid then (p.1, f p.2) else p)

/-- `CSyncTimeline::addWaiter` as seen from the environment: appends a
waiter to the timeline's list; fails when the timeline does not exist. -/
def SyncEnv.addWaiterEnv (env : SyncEnv) (tid : Nat) (value owner : Nat) : Bool × SyncEnv :=
  match env.timelineAt tid with
  | none => (false, env)
  | some _ =>
    let ts := updTimeline env.timelines tid (fun tl => { waiters := tl.waiters ++ [⟨value, owner⟩] })
    (true, { env with timelines := ts })

/-- `CSyncTimeline::signal(value)`: all waiters at points ≤ value fire and
are removed from the timeline. -/
def SyncEnv.signalTimeline (env : SyncEnv) (tid v : Nat) : SyncEnv :=
  { env with timelines := updTimeline env.timelines tid (fun tl => { waiters := tl.waiters.filter (fun w => v < w.value) }) }

/-- `CSyncTimeline::removeAllWaiters()`: drops every waiter registered on
the timeline, regardless of who registered it. -/
def SyncEnv.removeAllWaitersEnv (env : SyncEnv) (tid : Nat) : SyncEnv :=
  { env with timelines := updTimeline env.timelines tid (fun _ => { waiters := [] }) }

/-- `CDRMSyncPointState` from DRMSyncobj.cpp: a (timeline resource, point,
acquire-or-release role) tuple. `m_resource` is a weak reference (an id). -/
structure CDRMSyncPointState where
  m_resource : Nat
  m_point : Nat
  m_acquirePoint : Bool
  m_releaseTaken : Bool := false
  m_acquireCommitted : Bool := false
deriving DecidableEq

/-- `CDRMSyncPointState::expired()`: the weak resource reference is gone, or
the resource has no imported timeline. -/
def CDRMSyncPointState.expired (env : SyncEnv) (s : CDRMSyncPointState) : Bool :=
  match env.resource s.m_resource with
  | none => true
  | some r => r.timeline.isNone

/-- `CDRMSyncPointState::timeline()`: logs and returns empty on an expired
point, otherwise the resource's timeline. -/
def CDRMSyncPointState.timeline (env : SyncEnv) (s : CDRMSyncPointState) : Option Nat :=
  if s.expired env then none
  else (env.resource s.m_resource).bind CDRMSyncobjTimelineResource.timeline

/-- `CSyncReleaser`: one-shot object that signals `timeline` at `point`. -/
structure CSyncReleaser where
  timeline : Nat
  point : Nat
deriving DecidableEq

/-- `CDRMSyncPointState::createSyncRelease()`: returns `none` on an expired
point. On a live point it sets `m_releaseTaken` and returns a fresh
releaser; a second call on an already-taken point only logs an error and
still constructs another releaser (the source has no early return there). -/
def CDRMSyncPointState.createSyncRelease (env : SyncEnv) (s : CDRMSyncPointState) :
    Option CSyncReleaser × CDRMSyncPointState :=
  if s.expired env then (none, s)
  else ((s.timeline env).map (fun tid => ⟨tid, s.m_point⟩), { s with m_releaseTaken := true })

/-- `CDRMSyncPointState::addWaiter(cb)`: fails on an expired point; otherwise
marks the point committed and registers the waiter with the timeline. -/
def CDRMSyncPointState.addWaiter (env : SyncEnv) (s : CDRMSyncPointState) (owner : Nat) :
    Bool × SyncEnv × CDRMSyncPointState :=
  if s.expired env then (false, env, s)
  else
    match s.timeline env with
    | some tid =>
      let r := env.addWaiterEnv tid s.m_point owner
      (r.1, r.2, { s with m_acquireCommitted := true })
    | none => (false, env, { s with m_acquireCommitted := true })

/-- `CDRMSyncPointState::exportAsFD()`: empty on an expired point, otherwise
a handle for (timeline, point) from `exportAsSyncFileFD`. -/
def CDRMSyncPointState.exportAsFD (env : SyncEnv) (s : CDRMSyncPointState) : Option (Nat × Nat) :=
  if s.expired env then none
  else (s.timeline env).map (fun tid => (tid, s.m_point))

/-- `CDRMSyncPointState::signal()`: no-op on an expired point, otherwise
signals the timeline at the point's value. -/
def CDRMSyncPointState.signal (env : SyncEnv) (s : CDRMSyncPointState) : SyncEnv :=
  if s.expired env then env
  else
    match s.timeline env with
    | some tid => env.signalTimeline tid s.m_point
    | none => env

/-- protocol error codes of `wp_linux_drm_syncobj_surface_v1` raised by
`CDRMSyncobjSurfaceResource::protocolError`. -/
inductive ESyncobjError where
  | NO_BUFFER
  | NO_ACQUIRE_POINT
  | NO_RELEASE_POINT
  | CONFLICTING_POINTS
deriving DecidableEq

/-- the slice of `surface->pending` that `protocolError` inspects: the
resolved texture, and the acquire/release points attached to the pending
buffer. -/
structure SPending where
  texture : Bool
  bufAcquire : Option CDRMSyncPointState
  bufRelease : Option CDRMSyncPointState
  rejected : Bool := false
deriving DecidableEq

/-- `CDRMSyncobjSurfaceResource::protocolError` (DRMSyncobj.cpp 173-201):
checks, in order, missing texture, missing or expired acquire timeline,
missing or expired release timeline, and same-timeline acquire ≥ release.
Each failing check raises the corresponding error and marks the pending
state rejected. -/
def protocolError (env : SyncEnv) (p : SPending) : Option ESyncobjError × SPending :=
  if !p.texture then (some .NO_BUFFER, { p with rejected := true })
  else
    match p.bufAcquire with
    | none => (some .NO_ACQUIRE_POINT, { p with rejected := true })
    | some a =>
      if (a.timeline env).isNone then (some .NO_ACQUIRE_POINT, { p with rejected := true })
      else
        match p.bufRelease with
        | none => (some .NO_RELEASE_POINT, { p with rejected := true })
        | some r =>
          if (r.timeline env).isNone then (some .NO_RELEASE_POINT, { p with rejected := true })
          else
            if a.timeline env == r.timeline env then
              if r.m_point ≤ a.m_point then
                (some .CONFLICTING_POINTS, { p with rejected := true })
              else (none, p)
            else (none, p)

/-- environment used by the closed witnesses: two timeline resources (ids 0
and 1) each owning a live timeline with no waiters. -/
def envW : SyncEnv :=
  { resources := [(0, ⟨some 0⟩), (1, ⟨some 1⟩)], timelines := [(0, ⟨[]⟩), (1, ⟨[]⟩)] }

def acqW : CDRMSyncPointState := { m_resource := 0, m_point := 5, m_acquirePoint := true }

def relW : CDRMSyncPointState := { m_resource := 0, m_point := 5, m_acquirePoint := false }

/-- sync point used by the C3 counterexample, on the live resource 0. -/
def pntC3 : CDRMSyncPointState := { m_resource := 0, m_point := 3, m_acquirePoint := false }

/-- a sync point whose resource id is absent from `envW`, hence expired. -/
def pntExpired : CDRMSyncPointState := { m_resource := 99, m_point := 7, m_acquirePoint := true }

/-!
The surface commit engine of `src/src/protocols/core/Compositor.cpp`
(`CWLSurfaceResource`, the `setCommit` handler, the in-flight
`pendingStates` queue and the `whenReadable` drain callback, lines
103-170 and 483-524). `commitState` is modelled by its effect on the
surface's `current` slot (`current.updateFrom(state)`), plus a ghost log
`applied` recording the order in which states were applied.
-/

/-- synchronicity class of an attached buffer, as the commit handler reads
it: `isSynchronous()`, `type() == BUFFER_TYPE_DMABUF`, `dmabuf().success`,
and whether `exportSyncFile()` yields a valid fd. -/
structure SBuffer where
  synchronous : Bool
  isDmabuf : Bool
  dmabufSuccess : Bool
  syncFileValid : Bool
deriving DecidableEq

/-- the slice of a pending `SSurfaceState` snapshot that the `setCommit`
handler inspects, with `sid` an identity for the snapshot (the source
compares snapshot pointers; snapshots are distinct allocations). -/
structure CSurfacePending where
  sid : Nat
  updatedBuffer : Bool
  buffer : Option SBuffer
  texture : Bool
  updatedAcquire : Bool
  rejected : Bool
deriving DecidableEq

/-- the commit-engine state of one `CWLSurfaceResource`: `current` holds
the id of the last applied snapshot, `applied` is the ghost application
log, `pendingStates` the in-flight FIFO queue (front first), and `waiters`
the snapshots with a registered suspension callback (an acquire-point
waiter or an implicit-fence readability callback). -/
structure CWLSurfaceResource where
  current : Option Nat
  applied : List Nat
  pendingStates : List CSurfacePending
  waiters : List Nat
deriving DecidableEq

/-- `CWLSurfaceResource::commitState`: copies the state into `current`
(modelled by its id) and logs the application. -/
def commitState (surf : CWLSurfaceResource) (sid : Nat) : CWLSurfaceResource :=
  { surf with current := some sid, applied := surf.applied ++ [sid] }

/-- applies a list of queued snapshots in order via `commitState`. -/
def applySeq (surf : CWLSurfaceResource) : List CSurfacePending → CWLSurfaceResource
  | [] => surf
  | s :: rest => applySeq (commitState surf s.sid) rest

/-- the loop of the `whenReadable` closure (Compositor.cpp 143-149): split
the queue into the prefix up to and including the first snapshot with id
`t` and the remainder. -/
def drainUpTo : List CSurfacePending → Nat → List CSurfacePending × List CSurfacePending
  | [], _ => ([], [])
  | s :: rest, t =>
    if s.sid = t then ([s], rest)
    else
      let pr := drainUpTo rest t
      (s :: pr.1, pr.2)

/-- commits every queued snapshot from the front up to and including
`target`, and pops them. -/
def applyDrain (surf : CWLSurfaceResource) (target : Nat) : CWLSurfaceResource :=
  { applySeq surf (drainUpTo surf.pendingStates target).1 with pendingStates := (drainUpTo surf.pendingStates target).2 }

/-- the `whenReadable` readiness callback (Compositor.cpp 139-150): a no-op
when the snapshot is already gone (the weak pointer expired, i.e. its id is
no longer queued); otherwise pops and applies every queued snapshot up to
and including its own, in strict queue order. -/
def whenReadable (surf : CWLSurfaceResource) (target : Nat) : CWLSurfaceResource :=
  if target ∈ surf.pendingStates.map CSurfacePending.sid then applyDrain surf target
  else surf

/-- the commit handler `setCommit` (Compositor.cpp 103-170), from the point
after the precommit hook ran: a rejected pending state is dropped without
touching anything else; a commit with no new buffer, or with a null buffer,
calls `commitState` directly; otherwise the snapshot is enqueued and a wait
strategy is chosen: explicit acquire point → register a waiter; synchronous
buffer → `whenReadable` immediately; dmabuf with implicit fence → register
a readability callback when `exportSyncFile` yields a valid fd, else
`whenReadable` immediately as a degraded fallback; any other async buffer →
logged as a bug and `whenReadable` immediately. The `Option.none` buffer
case in the strategy match is unreachable in the source, which dereferences
the buffer there; no claim evaluates it. -/
def setCommit (surf : CWLSurfaceResource) (pending : CSurfacePending) : CWLSurfaceResource :=
  if pending.rejected then surf
  else if !pending.updatedBuffer || (pending.buffer.isNone && !pending.texture) then
    commitState surf pending.sid
  else
    let surf1 := { surf with pendingStates := surf.pendingStates ++ [pending] }
    if pending.updatedAcquire then
      { surf1 with waiters := surf1.waiters ++ [pending.sid] }
    else
      match pending.buffer with
      | some b =>
        if b.synchronous then whenReadable surf1 pending.sid
        else if b.isDmabuf && b.dmabufSuccess then
          if b.syncFileValid then { surf1 with waiters := surf1.waiters ++ [pending.sid] }
          else whenReadable surf1 pending.sid
        else whenReadable surf1 pending.sid
      | none => whenReadable surf1 pending.sid

/-- the engine state of a surface whose in-flight queue is `q0`, before any
readiness signal fired. -/
def initialSurf (q0 : List CSurfacePending) : CWLSurfaceResource :=
  { current := none, applied := [], pendingStates := q0, waiters := [] }

def surfC5 : CWLSurfaceResource :=
  { current := some 0, applied := [0], pendingStates := [], waiters := [] }

def pendC5 : CSurfacePending :=
  { sid := 1, updatedBuffer := true, buffer := none, texture := true,
    updatedAcquire := false, rejected := true }

def pNoTexture : SPending := { texture := false, bufAcquire := none, bufRelease := none }

def surfE : CWLSurfaceResource :=
  { current := none, applied := [], pendingStates := [], waiters := [] }

def bufSync : SBuffer :=
  { synchronous := true, isDmabuf := false, dmabufSuccess := false, syncFileValid := false }

def pendC9 : CSurfacePending :=
  { sid := 0, updatedBuffer := true, buffer := some bufSync, texture := true,
    updatedAcquire := false, rejected := false }

def bufDma : SBuffer :=
  { synchronous := false, isDmabuf := true, dmabufSuccess := true, syncFileValid := true }

def pendC8 : CSurfacePending :=
  { sid := 2, updatedBuffer := true, buffer := some bufDma, texture := true,
    updatedAcquire := false, rejected := false }

/-!
The per-surface syncobj adapter `CDRMSyncobjSurfaceResource` of
DRMSyncobj.cpp: its staged `pendingAcquire`/`pendingRelease` slots, its own
`pendingStates` vector, the `surfacePrecommit` listener (lines 111-157),
`removeAllWaiters` (lines 160-167) and the acquire waiter callback (lines
150-156).
-/

/-- association-list lookup used by the environment accessors. -/
def lookupTL (ts : List (Nat × STimeline)) (tid : Nat) : Option STimeline :=
  (ts.find? (fun p => p.1 == tid)).map Prod.snd

/-- a snapshot in the adapter's own `pendingStates` vector: its identity,
whether its buffer is present, and the acquire/release points attached to
that buffer. -/
structure SyncobjQueuedState where
  sid : Nat
  hasBuffer : Bool
  acquire : Option CDRMSyncPointState
  release : Option CDRMSyncPointState
deriving DecidableEq

/-- the adapter itself: the two staged point slots (where `none` models the
default-constructed, expired `CDRMSyncPointState{}` value) and the queue of
snapshots awaiting their acquire signal. -/
structure CDRMSyncobjSurfaceResource where
  pendingAcquire : Option CDRMSyncPointState
  pendingRelease : Option CDRMSyncPointState
  pendingStates : List SyncobjQueuedState
deriving DecidableEq

/-- the slice of the owning `CWLSurfaceResource` that the precommit
listener reads and writes: presence flags of the pending/current buffers,
the pending texture, the points attached to the pending buffer object
(which survives into snapshots via shared ownership), the rejected flag,
ids for the pending and current states, and a ghost log of
`commitPendingState` calls in order. -/
structure SyncobjSurface where
  pendingBuffer : Bool
  newBuffer : Bool
  pendingTexture : Bool
  currentBuffer : Bool
  rejected : Bool
  pendingSid : Nat
  currentSid : Nat
  bufAcquire : Option CDRMSyncPointState
  bufRelease : Option CDRMSyncPointState
  appliedLog : List Nat
deriving DecidableEq

/-- Modelled from the spec: `CWLSurfaceResource::commitPendingState` is
called throughout DRMSyncobj.cpp but its definition is not among the
provided sources. Per the spec (section 4.3, "Applying a state: copies it
into `current` ..."), applying a state makes it the surface's current
state; we model the state by its id and log the application. -/
def commitPendingState (surf : SyncobjSurface) (sid : Nat) : SyncobjSurface :=
  { surf with currentSid := sid, appliedLog := surf.appliedLog ++ [sid] }

/-- the world a syncobj surface lives in: the live-object environment, the
surface and its adapter. -/
structure SyncobjWorld where
  env : SyncEnv
  surf : SyncobjSurface
  adapter : CDRMSyncobjSurfaceResource
deriving DecidableEq

/-- one iteration of the `removeAllWaiters` loop (DRMSyncobj.cpp 161-164):
for a queued snapshot with a buffer and a non-expired acquire point, remove
every waiter from that acquire point's timeline. -/
def removeWaiterStep (env : SyncEnv) (q : SyncobjQueuedState) : SyncEnv :=
  match q.acquire with
  | some a =>
    if (q.hasBuffer && !a.expired env) = true then
      match a.timeline env with
      | some tid => env.removeAllWaitersEnv tid
      | none => env
    else env
  | none => env

/-- the loop of `CDRMSyncobjSurfaceResource::removeAllWaiters` over the
queued snapshots, in order. -/
def removeWaitersOf (env : SyncEnv) : List SyncobjQueuedState → SyncEnv
  | [] => env
  | q :: rest => removeWaitersOf (removeWaiterStep env q) rest

/-- `CDRMSyncobjSurfaceResource::removeAllWaiters` (DRMSyncobj.cpp
160-167): runs the removal loop over the queue, then clears the queue. -/
def CDRMSyncobjSurfaceResource.removeAllWaiters (env : SyncEnv)
    (ad : CDRMSyncobjSurfaceResource) : SyncEnv × CDRMSyncobjSurfaceResource :=
  (removeWaitersOf env ad.pendingStates, { ad with pendingStates := [] })

/-- staged-slot consumption (DRMSyncobj.cpp 130-138): a staged point that
is not expired is moved onto the pending buffer and its slot reset to the
empty value; an expired or absent staged value leaves both the slot and
the buffer's existing point untouched. Returns (buffer point, new slot). -/
def consumeStaged (env : SyncEnv) (slot cur : Option CDRMSyncPointState) :
    Option CDRMSyncPointState × Option CDRMSyncPointState :=
  match slot with
  | some a => if a.expired env then (cur, slot) else (some a, none)
  | none => (cur, none)

/-- the `surfacePrecommit` listener of `CDRMSyncobjSurfaceResource`
(DRMSyncobj.cpp 111-157). Branches in source order: (1) a null buffer was
attached: remove all waiters and commit the pending state immediately;
(2) no new buffer but a current buffer exists: re-commit the current
state; (3) neither pending nor current buffer: first commit, commit
pending; (4) otherwise (a real new buffer): consume the staged
acquire/release points onto the pending buffer, validate via
`protocolError` (returning early with the pending state rejected on
error), enqueue a snapshot of the pending state, and register an acquire
waiter owned by the snapshot. The release-releaser creation of line 149
and the taken/committed flag updates on the snapshot's own point copies
have no effect any claim observes and are not tracked. -/
def surfacePrecommit (w : SyncobjWorld) : SyncobjWorld :=
  if (!w.surf.pendingBuffer && w.surf.newBuffer && !w.surf.pendingTexture) = true then
    let r := w.adapter.removeAllWaiters w.env
    { env := r.1, adapter := r.2, surf := commitPendingState w.surf w.surf.pendingSid }
  else if (!w.surf.pendingBuffer && !w.surf.newBuffer && w.surf.currentBuffer) = true then
    { w with surf := commitPendingState w.surf w.surf.currentSid }
  else if (!w.surf.pendingBuffer && !w.surf.newBuffer && !w.surf.currentBuffer) = true then
    { w with surf := commitPendingState w.surf w.surf.pendingSid }
  else
    let pa := consumeStaged w.env w.adapter.pendingAcquire w.surf.bufAcquire
    let pr := consumeStaged w.env w.adapter.pendingRelease w.surf.bufRelease
    let surf1 := { w.surf with bufAcquire := pa.1, bufRelease := pr.1 }
    let adapter1 := { w.adapter with pendingAcquire := pa.2, pendingRelease := pr.2 }
    let pe := protocolError w.env
      { texture := surf1.pendingTexture, bufAcquire := surf1.bufAcquire,
        bufRelease := surf1.bufRelease, rejected := false }
    if pe.1.isSome then
      { env := w.env, adapter := adapter1, surf := { surf1 with rejected := true } }
    else
      let st : SyncobjQueuedState :=
        { sid := surf1.pendingSid, hasBuffer := true,
          acquire := surf1.bufAcquire, release := surf1.bufRelease }
      let adapter2 := { adapter1 with pendingStates := adapter1.pendingStates ++ [st] }
      let env1 := match surf1.bufAcquire with
        | some a => (a.addWaiter w.env st.sid).2.1
        | none => w.env
      { env := env1, adapter := adapter2,
        surf := { surf1 with pendingBuffer := false, newBuffer := false } }

/-- the acquire waiter callback registered by the adapter (DRMSyncobj.cpp
150-156): when it fires for a still-queued snapshot, it calls
`commitPendingState` on that snapshot alone and erases it from the adapter
queue; earlier queued snapshots are not applied first. -/
def syncobjAcquireFire (w : SyncobjWorld) (target : Nat) : SyncobjWorld :=
  if target ∈ w.adapter.pendingStates.map SyncobjQueuedState.sid then
    { w with surf := commitPendingState w.surf target,
             adapter := { w.adapter with
               pendingStates := w.adapter.pendingStates.filter (fun s => !(s.sid == target)) } }
  else w

/-- does owner `o` have a waiter registered on timeline `tid`? -/
def ownsWaiterOn (env : SyncEnv) (o tid : Nat) : Bool :=
  match env.timelineAt tid with
  | none => false
  | some tl => tl.waiters.any (fun w => w.owner == o)

/-- does queued snapshot `s` hold a live acquire point on timeline `tid`? -/
def liveAcquireOn (env : SyncEnv) (s : SyncobjQueuedState) (tid : Nat) : Bool :=
  s.hasBuffer && (match s.acquire with
    | some a => !a.expired env && (a.timeline env == some tid)
    | none => false)

/-- every lookup of timeline `tid` yields an empty waiter list. -/
def clearedAt (env : SyncEnv) (tid : Nat) : Prop :=
  ∀ tl, env.timelineAt tid = some tl → tl.waiters = []

def envC10 : SyncEnv :=
  { resources := [(0, ⟨some 0⟩)],
    timelines := [(0, { waiters := [⟨5, 100⟩, ⟨9, 200⟩] })] }

def aC10 : CDRMSyncPointState := { m_resource := 0, m_point := 5, m_acquirePoint := true }

def sC10 : SyncobjQueuedState :=
  { sid := 100, hasBuffer := true, acquire := some aC10, release := none }

def adC10 : CDRMSyncobjSurfaceResource :=
  { pendingAcquire := none, pendingRelease := none, pendingStates := [sC10] }

def aC4 : CDRMSyncPointState := { m_resource := 0, m_point := 5, m_acquirePoint := true }

def sC4 : SyncobjQueuedState :=
  { sid := 100, hasBuffer := true, acquire := some aC4, release := none }

def envC4 : SyncEnv :=
  { resources := [(0, ⟨some 0⟩)],
    timelines := [(0, { waiters := [⟨5, 100⟩, ⟨9, 200⟩] })] }

def surfC4 : SyncobjSurface :=
  { pendingBuffer := false, newBuffer := true, pendingTexture := false,
    currentBuffer := true, rejected := false, pendingSid := 7, currentSid := 3,
    bufAcquire := none, bufRelease := none, appliedLog := [3] }

def wC4 : SyncobjWorld :=
  { env := envC4,
    surf := surfC4,
    adapter := { pendingAcquire := none, pendingRelease := none, pendingStates := [sC4] } }

/-- environment where the timeline resource id 0 has been destroyed (the
resource list is empty, so the point `aC4` referencing it is expired) while
the underlying kernel timeline id 0 is still alive — kept so in the source
by the snapshot's `CSyncReleaser`, which holds a shared pointer to the
`CSyncTimeline` — and still carries the waiter that snapshot 100
registered at point 5. -/
def envC4x : SyncEnv :=
  { resources := [], timelines := [(0, { waiters := [⟨5, 100⟩] })] }

/-- a null-buffer commit arriving while snapshot 100 is queued with its
now-expired acquire point. -/
def wC4x : SyncobjWorld :=
  { env := envC4x,
    surf := surfC4,
    adapter := { pendingAcquire := none, pendingRelease := none, pendingStates := [sC4] } }

def stagedA : CDRMSyncPointState := { m_resource := 0, m_point := 11, m_acquirePoint := true }

def stagedR : CDRMSyncPointState := { m_resource := 1, m_point := 12, m_acquirePoint := false }

def surfC7 : SyncobjSurface :=
  { pendingBuffer := false, newBuffer := false, pendingTexture := false,
    currentBuffer := false, rejected := false, pendingSid := 0, currentSid := 0,
    bufAcquire := none, bufRelease := none, appliedLog := [] }

def wC7 : SyncobjWorld :=
  { env := envW,
    surf := surfC7,
    adapter := { pendingAcquire := some stagedA, pendingRelease := some stagedR,
                 pendingStates := [] } }

/-- the client attaches a fresh real buffer (no points on it yet) with a
resolved texture and a new snapshot id, as `wl_surface.attach` before the
next commit would. -/
def attachNewBuffer (w : SyncobjWorld) : SyncobjWorld :=
  let s := w.surf
  let s2 : SyncobjSurface :=
    { pendingBuffer := true, newBuffer := true, pendingTexture := true,
      currentBuffer := s.currentBuffer, rejected := s.rejected,
      pendingSid := s.pendingSid + 1, currentSid := s.currentSid,
      bufAcquire := none, bufRelease := none, appliedLog := s.appliedLog }
  { w with surf := s2 }

def aQ0 : CDRMSyncPointState := { m_resource := 0, m_point := 1, m_acquirePoint := true }

def aQ1 : CDRMSyncPointState := { m_resource := 1, m_point := 1, m_acquirePoint := true }

def sQ0 : SyncobjQueuedState := { sid := 0, hasBuffer := true, acquire := some aQ0, release := none }

def sQ1 : SyncobjQueuedState := { sid := 1, hasBuffer := true, acquire := some aQ1, release := none }

def surfC1 : SyncobjSurface :=
  { pendingBuffer := false, newBuffer := false, pendingTexture := false,
    currentBuffer := true, rejected := false, pendingSid := 2, currentSid := 5,
    bufAcquire := none, bufRelease := none, appliedLog := [] }

def wC1 : SyncobjWorld :=
  { env := envW,
    surf := surfC1,
    adapter := { pendingAcquire := none, pendingRelease := none,
                 pendingStates := [sQ0, sQ1] } }

/-- a live point's `timeline()` accessor yields a timeline. -/
theorem timeline_isSome_of_not_expired (env : SyncEnv) (s : CDRMSyncPointState)
    (h : s.expired env = false) : (s.timeline env).isSome = true := by
  unfold CDRMSyncPointState.timeline
  rw [h]
  simp only [Bool.false_eq_true, if_false]
  unfold CDRMSyncPointState.expired at h
  cases hres : env.resource s.m_resource with
  | none => rw [hres] at h; simp at h
  | some r =>
    rw [hres] at h
    simp only [Option.isNone_eq_false_iff] at h
    simpa using h

/-- C2: with a resolved texture and live acquire and release timelines,
`protocolError` returns `CONFLICTING_POINTS` exactly when acquire and
release sit on the same timeline and the acquire value is ≥ the release
value. -/
theorem C2_conflicting_points_iff (env : SyncEnv) (p : SPending)
    (a r : CDRMSyncPointState)
    (htex : p.texture = true)
    (ha : p.bufAcquire = some a) (hr : p.bufRelease = some r)
    (hat : (a.timeline env).isSome = true) (hrt : (r.timeline env).isSome = true) :
    (protocolError env p).1 = some ESyncobjError.CONFLICTING_POINTS ↔
      (a.timeline env = r.timeline env ∧ r.m_point ≤ a.m_point) := by
  have hat' : (a.timeline env).isNone = false := by
    cases h : a.timeline env <;> simp_all
  have hrt' : (r.timeline env).isNone = false := by
    cases h : r.timeline env <;> simp_all
  by_cases heq : a.timeline env = r.timeline env
  · by_cases hle : r.m_point ≤ a.m_point
    · simp [protocolError, htex, ha, hr, hat', hrt', heq, hle]
    · simp [protocolError, htex, ha, hr, hat', hrt', heq, hle]
  · have hne : (a.timeline env == r.timeline env) = false := by
      simpa using heq
    simp [protocolError, htex, ha, hr, hat', hrt', hne, heq]

/-- C2 witness: acquire 5 and release 5 on the same timeline are rejected
with CONFLICTING_POINTS. -/
theorem C2_witness :
    (protocolError envW { texture := true, bufAcquire := some acqW, bufRelease := some relW }).1
      = some ESyncobjError.CONFLICTING_POINTS :=
  (C2_conflicting_points_iff envW _ acqW relW rfl rfl rfl (by decide) (by decide)).mpr (by decide)

/-- C3 counterexample: the first `createSyncRelease` on a live point returns
a releaser and marks the point taken, but a second call on the resulting
(already-taken, still live) point again returns a releaser instead of
failing: the source only logs on `m_releaseTaken` and falls through. -/
theorem C3_counterexample :
    (pntC3.createSyncRelease envW).1.isSome = true ∧
    (pntC3.createSyncRelease envW).2.m_releaseTaken = true ∧
    ((pntC3.createSyncRelease envW).2.createSyncRelease envW).1.isSome = true := by
  decide

/-- C3 amended: `createSyncRelease` on a live point always returns a
releaser and marks the point taken, even when a releaser was already taken
(the double-take is only logged); only a call on an expired point returns
none, leaving the point unchanged. -/
theorem C3_amended (env : SyncEnv) (s : CDRMSyncPointState) :
    (s.expired env = false →
      (s.createSyncRelease env).1.isSome = true ∧
      (s.createSyncRelease env).2 = { s with m_releaseTaken := true }) ∧
    (s.expired env = true → s.createSyncRelease env = (none, s)) := by
  constructor
  · intro h
    have ht := timeline_isSome_of_not_expired env s h
    unfold CDRMSyncPointState.createSyncRelease
    rw [h]
    refine ⟨?_, rfl⟩
    simpa using ht
  · intro h
    unfold CDRMSyncPointState.createSyncRelease
    rw [h]
    simp

/-- C3 amended witness: on the live point `pntC3`, a releaser is returned
and the point is marked taken. -/
theorem C3_amended_witness :
    (pntC3.createSyncRelease envW).1.isSome = true ∧
    (pntC3.createSyncRelease envW).2 = { pntC3 with m_releaseTaken := true } :=
  (C3_amended envW pntC3).1 (by decide)

/-- C6: every operation on an expired sync point is a local failure: the
timeline accessor, releaser creation, waiter registration and FD export all
return their empty/false value, `signal` leaves the environment untouched,
and no operation reads or writes any timeline (the environment and the
point are returned unchanged). -/
theorem C6_expired_ops_safe (env : SyncEnv) (s : CDRMSyncPointState) (owner : Nat)
    (h : s.expired env = true) :
    s.timeline env = none ∧
    s.createSyncRelease env = (none, s) ∧
    s.addWaiter env owner = (false, env, s) ∧
    s.exportAsFD env = none ∧
    s.signal env = env := by
  refine ⟨?_, ?_, ?_, ?_, ?_⟩ <;>
    simp [CDRMSyncPointState.timeline, CDRMSyncPointState.createSyncRelease,
      CDRMSyncPointState.addWaiter, CDRMSyncPointState.exportAsFD,
      CDRMSyncPointState.signal, h]

/-- C6 witness: the expired point `pntExpired` fails every operation in
`envW` without touching it. -/
theorem C6_witness :
    pntExpired.timeline envW = none ∧
    pntExpired.createSyncRelease envW = (none, pntExpired) ∧
    pntExpired.addWaiter envW 0 = (false, envW, pntExpired) ∧
    pntExpired.exportAsFD envW = none ∧
    pntExpired.signal envW = envW :=
  C6_expired_ops_safe envW pntExpired 0 (by decide)

/-- applying a list of snapshots leaves the queue untouched. -/
theorem applySeq_pendingStates (l : List CSurfacePending) (surf : CWLSurfaceResource) :
    (applySeq surf l).pendingStates = surf.pendingStates := by
  induction l generalizing surf with
  | nil => rfl
  | cons s rest ih => simp [applySeq, commitState, ih]

/-- applying a list of snapshots registers no waiter. -/
theorem applySeq_waiters (l : List CSurfacePending) (surf : CWLSurfaceResource) :
    (applySeq surf l).waiters = surf.waiters := by
  induction l generalizing surf with
  | nil => rfl
  | cons s rest ih => simp [applySeq, commitState, ih]

/-- applying a list of snapshots appends their ids to the application log
in order. -/
theorem applySeq_applied (l : List CSurfacePending) (surf : CWLSurfaceResource) :
    (applySeq surf l).applied = surf.applied ++ l.map CSurfacePending.sid := by
  induction l generalizing surf with
  | nil => simp [applySeq]
  | cons s rest ih => simp [applySeq, commitState, ih]

/-- after applying a nonempty list of snapshots, `current` is the last one. -/
theorem applySeq_current_concat (l : List CSurfacePending) (p : CSurfacePending)
    (surf : CWLSurfaceResource) : (applySeq surf (l ++ [p])).current = some p.sid := by
  induction l generalizing surf with
  | nil => simp [applySeq, commitState]
  | cons s rest ih => simpa [applySeq] using ih (commitState surf s.sid)

/-- `applySeq` preserves the invariant that `current` is the last entry of
the application log. -/
theorem applySeq_getLast (l : List CSurfacePending) (surf : CWLSurfaceResource)
    (h : surf.current = surf.applied.getLast?) :
    (applySeq surf l).current = (applySeq surf l).applied.getLast? := by
  induction l generalizing surf with
  | nil => exact h
  | cons s rest ih =>
    apply ih
    simp [commitState]

/-- the drain split reassembles to the original queue whenever the target
is present. -/
theorem drainUpTo_decomp (q : List CSurfacePending) (t : Nat)
    (h : t ∈ q.map CSurfacePending.sid) :
    (drainUpTo q t).1 ++ (drainUpTo q t).2 = q := by
  induction q with
  | nil => simp at h
  | cons s rest ih =>
    by_cases hs : s.sid = t
    · simp [drainUpTo, hs]
    · have h' : t ∈ rest.map CSurfacePending.sid := by
        rw [List.map_cons, List.mem_cons] at h
        rcases h with h1 | h2
        · exact absurd h1.symm hs
        · exact h2
      simp [drainUpTo, hs, ih h']

/-- draining to a freshly enqueued snapshot takes the whole queue. -/
theorem drainUpTo_concat_fresh (q : List CSurfacePending) (p : CSurfacePending)
    (h : p.sid ∉ q.map CSurfacePending.sid) :
    drainUpTo (q ++ [p]) p.sid = (q ++ [p], []) := by
  induction q with
  | nil => simp [drainUpTo]
  | cons s rest ih =>
    have hs : ¬ s.sid = p.sid := by
      intro he
      exact h (by simp [← he])
    have h' : p.sid ∉ rest.map CSurfacePending.sid := by
      intro hm
      exact h (by simp [hm])
    simp [drainUpTo, hs, ih h']

/-- one readiness callback never loses or reorders queue entries: the
application log extended by the remaining queue is unchanged. -/
theorem whenReadable_log_inv (surf : CWLSurfaceResource) (t : Nat) :
    (whenReadable surf t).applied ++ (whenReadable surf t).pendingStates.map CSurfacePending.sid
      = surf.applied ++ surf.pendingStates.map CSurfacePending.sid := by
  unfold whenReadable
  by_cases h : t ∈ surf.pendingStates.map CSurfacePending.sid
  · rw [if_pos h]
    show (applySeq surf (drainUpTo surf.pendingStates t).1).applied
        ++ ((drainUpTo surf.pendingStates t).2.map CSurfacePending.sid) = _
    rw [applySeq_applied, List.append_assoc, ← List.map_append, drainUpTo_decomp _ _ h]
  · rw [if_neg h]

/-- one readiness callback preserves the last-applied invariant. -/
theorem whenReadable_current_inv (surf : CWLSurfaceResource) (t : Nat)
    (h : surf.current = surf.applied.getLast?) :
    (whenReadable surf t).current = (whenReadable surf t).applied.getLast? := by
  unfold whenReadable
  by_cases hm : t ∈ surf.pendingStates.map CSurfacePending.sid
  · rw [if_pos hm]
    exact applySeq_getLast _ surf h
  · rw [if_neg hm]
    exact h

/-- one readiness callback registers no new waiter. -/
theorem whenReadable_waiters (surf : CWLSurfaceResource) (t : Nat) :
    (whenReadable surf t).waiters = surf.waiters := by
  unfold whenReadable
  by_cases hm : t ∈ surf.pendingStates.map CSurfacePending.sid
  · rw [if_pos hm]
    exact applySeq_waiters _ surf
  · rw [if_neg hm]

/-- generalized ordering invariant over any sequence of readiness signals. -/
theorem foldl_whenReadable_inv (fires : List Nat) (surf : CWLSurfaceResource) :
    (fires.foldl whenReadable surf).applied
        ++ (fires.foldl whenReadable surf).pendingStates.map CSurfacePending.sid
      = surf.applied ++ surf.pendingStates.map CSurfacePending.sid
    ∧ (surf.current = surf.applied.getLast? →
        (fires.foldl whenReadable surf).current = (fires.foldl whenReadable surf).applied.getLast?) := by
  induction fires generalizing surf with
  | nil => exact ⟨rfl, fun h => h⟩
  | cons t rest ih =>
    rw [List.foldl_cons]
    refine ⟨?_, ?_⟩
    · rw [(ih (whenReadable surf t)).1, whenReadable_log_inv]
    · intro h
      exact (ih (whenReadable surf t)).2 (whenReadable_current_inv surf t h)

/-- firing the readiness callback of a freshly enqueued last snapshot
applies the entire queue in order, makes that snapshot current, empties the
queue and registers nothing. -/
theorem whenReadable_last_fresh (surf : CWLSurfaceResource) (q : List CSurfacePending)
    (p : CSurfacePending) (hq : surf.pendingStates = q ++ [p])
    (hfresh : p.sid ∉ q.map CSurfacePending.sid) :
    (whenReadable surf p.sid).current = some p.sid ∧
    (whenReadable surf p.sid).applied = surf.applied ++ q.map CSurfacePending.sid ++ [p.sid] ∧
    (whenReadable surf p.sid).pendingStates = [] ∧
    (whenReadable surf p.sid).waiters = surf.waiters := by
  have hmem : p.sid ∈ surf.pendingStates.map CSurfacePending.sid := by
    rw [hq]
    simp
  unfold whenReadable
  rw [if_pos hmem]
  unfold applyDrain
  rw [hq, drainUpTo_concat_fresh q p hfresh]
  refine ⟨?_, ?_, rfl, ?_⟩
  · exact applySeq_current_concat q p surf
  · rw [applySeq_applied]
    simp
  · exact applySeq_waiters _ surf

/-- C1 (amended): in the commit engine of Compositor.cpp, queued commit
states are applied strictly in submission order: after any sequence of
readiness callbacks on a surface whose in-flight queue was `q0`, the
application log is exactly the already-applied part of the submission
order (log followed by the remaining queue equals the submission order),
and `current` always equals the last applied state. The syncobj adapter of
DRMSyncobj.cpp keeps its own queue which does not obey this; see the
counterexample. -/
theorem C1_engine_applies_in_submission_order (q0 : List CSurfacePending) (fires : List Nat) :
    (fires.foldl whenReadable (initialSurf q0)).applied
        ++ (fires.foldl whenReadable (initialSurf q0)).pendingStates.map CSurfacePending.sid
      = q0.map CSurfacePending.sid
    ∧ (fires.foldl whenReadable (initialSurf q0)).current
      = (fires.foldl whenReadable (initialSurf q0)).applied.getLast? := by
  have h := foldl_whenReadable_inv fires (initialSurf q0)
  exact ⟨h.1, h.2 rfl⟩

/-- C5: every `protocolError` failure marks the pending state rejected, and
the commit handler discards a rejected pending state without applying any
part of it: `current`, the application log, the queue and the registered
waiters are all left unchanged. -/
theorem C5_protocol_error_rejects_without_apply (env : SyncEnv) (p : SPending)
    (surf : CWLSurfaceResource) (pending : CSurfacePending) :
    ((protocolError env p).1.isSome = true → (protocolError env p).2.rejected = true) ∧
    (pending.rejected = true → setCommit surf pending = surf) := by
  constructor
  · rcases p with ⟨tex, ba, br, rej⟩
    cases tex
    · simp [protocolError]
    · cases ba with
      | none => simp [protocolError]
      | some a =>
        by_cases hat : (a.timeline env).isNone
        · simp [protocolError, hat]
        · cases br with
          | none => simp [protocolError, hat]
          | some r =>
            by_cases hrt : (r.timeline env).isNone
            · simp [protocolError, hat, hrt]
            · by_cases heq : (a.timeline env == r.timeline env) = true
              · by_cases hle : r.m_point ≤ a.m_point
                · simp [protocolError, hat, hrt, heq, hle]
                · simp [protocolError, hat, hrt, heq, hle]
              · simp [protocolError, hat, hrt, heq]
  · intro h
    unfold setCommit
    rw [h]
    simp

/-- C5 witness: a commit with no resolved texture is marked rejected by
`protocolError`, and the commit handler drops the rejected pending state
leaving the surface untouched. -/
theorem C5_witness :
    (protocolError envW pNoTexture).2.rejected = true ∧ setCommit surfC5 pendC5 = surfC5 :=
  ⟨(C5_protocol_error_rejects_without_apply envW pNoTexture surfC5 pendC5).1 (by decide),
   (C5_protocol_error_rejects_without_apply envW pNoTexture surfC5 pendC5).2 rfl⟩

/-- C9: a commit whose snapshot has no explicit acquire point and a
synchronous buffer is applied with zero suspension: `commitState` runs in
the same turn as the commit call (the snapshot becomes `current` at once,
after draining any earlier queued snapshots in order), and no waiter or
readiness callback is registered. -/
theorem C9_synchronous_commit_zero_suspension (surf : CWLSurfaceResource)
    (pending : CSurfacePending) (b : SBuffer)
    (hrej : pending.rejected = false) (hupd : pending.updatedBuffer = true)
    (hb : pending.buffer = some b) (hacq : pending.updatedAcquire = false)
    (hsync : b.synchronous = true)
    (hfresh : pending.sid ∉ surf.pendingStates.map CSurfacePending.sid) :
    (setCommit surf pending).current = some pending.sid ∧
    (setCommit surf pending).applied
      = surf.applied ++ surf.pendingStates.map CSurfacePending.sid ++ [pending.sid] ∧
    (setCommit surf pending).pendingStates = [] ∧
    (setCommit surf pending).waiters = surf.waiters := by
  have hsc : setCommit surf pending
      = whenReadable { surf with pendingStates := surf.pendingStates ++ [pending] } pending.sid := by
    simp [setCommit, hrej, hupd, hb, hacq, hsync]
  rw [hsc]
  exact whenReadable_last_fresh _ surf.pendingStates pending rfl hfresh

/-- C9 witness: committing a synchronous-buffer snapshot with no acquire
point on an idle surface applies it immediately and registers no waiter. -/
theorem C9_witness :
    (setCommit surfE pendC9).current = some pendC9.sid ∧
    (setCommit surfE pendC9).applied
      = surfE.applied ++ surfE.pendingStates.map CSurfacePending.sid ++ [pendC9.sid] ∧
    (setCommit surfE pendC9).pendingStates = [] ∧
    (setCommit surfE pendC9).waiters = surfE.waiters :=
  C9_synchronous_commit_zero_suspension surfE pendC9 bufSync rfl rfl rfl rfl rfl (by decide)

/-- C8: a commit with no explicit acquire point and an asynchronous dmabuf
buffer carrying an implicit kernel fence: when `exportSyncFile` yields a
valid pollable handle, the snapshot is enqueued with a readability callback
registered, and firing that callback applies it; when no handle can be
obtained, the snapshot is applied immediately as a degraded fallback
instead of failing the commit. -/
theorem C8_implicit_fence_strategy (surf : CWLSurfaceResource)
    (pending : CSurfacePending) (b : SBuffer)
    (hrej : pending.rejected = false) (hupd : pending.updatedBuffer = true)
    (hb : pending.buffer = some b) (hacq : pending.updatedAcquire = false)
    (hsync : b.synchronous = false) (hdma : b.isDmabuf = true) (hsucc : b.dmabufSuccess = true)
    (hfresh : pending.sid ∉ surf.pendingStates.map CSurfacePending.sid) :
    (b.syncFileValid = true →
      setCommit surf pending
        = { surf with pendingStates := surf.pendingStates ++ [pending],
                      waiters := surf.waiters ++ [pending.sid] } ∧
      (whenReadable (setCommit surf pending) pending.sid).current = some pending.sid) ∧
    (b.syncFileValid = false →
      (setCommit surf pending).current = some pending.sid ∧
      (setCommit surf pending).applied
        = surf.applied ++ surf.pendingStates.map CSurfacePending.sid ++ [pending.sid] ∧
      (setCommit surf pending).pendingStates = [] ∧
      (setCommit surf pending).waiters = surf.waiters) := by
  constructor
  · intro hfd
    have hsc : setCommit surf pending
        = { surf with pendingStates := surf.pendingStates ++ [pending],
                      waiters := surf.waiters ++ [pending.sid] } := by
      simp [setCommit, hrej, hupd, hb, hacq, hsync, hdma, hsucc, hfd]
    refine ⟨hsc, ?_⟩
    rw [hsc]
    exact (whenReadable_last_fresh _ surf.pendingStates pending rfl hfresh).1
  · intro hfd
    have hsc : setCommit surf pending
        = whenReadable { surf with pendingStates := surf.pendingStates ++ [pending] } pending.sid := by
      simp [setCommit, hrej, hupd, hb, hacq, hsync, hdma, hsucc, hfd]
    rw [hsc]
    exact whenReadable_last_fresh _ surf.pendingStates pending rfl hfresh

/-- C8 witness: on an idle surface, a dmabuf commit whose implicit fence
exports a valid handle is enqueued with a readability callback, and firing
the callback applies it. -/
theorem C8_witness :
    setCommit surfE pendC8
      = { surfE with pendingStates := surfE.pendingStates ++ [pendC8],
                     waiters := surfE.waiters ++ [pendC8.sid] } ∧
    (whenReadable (setCommit surfE pendC8) pendC8.sid).current = some pendC8.sid :=
  (C8_implicit_fence_strategy surfE pendC8 bufDma rfl rfl rfl rfl rfl rfl rfl (by decide)).1 rfl

/-- `find?` commutes with a key-preserving map. -/
theorem find_map_keyInv (ts : List (Nat × STimeline)) (g : Nat × STimeline → Nat × STimeline)
    (hg : ∀ p, (g p).1 = p.1) (t : Nat) :
    (ts.map g).find? (fun p => p.1 == t) = (ts.find? (fun p => p.1 == t)).map g := by
  induction ts with
  | nil => rfl
  | cons p rest ih =>
    by_cases hp : (p.1 == t) = true
    · simp [List.find?, hg, hp]
    · simp [List.find?, hg, hp, ih]

/-- the environment's timeline accessor is the association-list lookup. -/
theorem timelineAt_eq_lookupTL (env : SyncEnv) (tid : Nat) :
    env.timelineAt tid = lookupTL env.timelines tid := rfl

/-- lookup of the updated key after a point-wise update. -/
theorem lookupTL_upd_self (ts : List (Nat × STimeline)) (t : Nat) (f : STimeline → STimeline) :
    lookupTL (updTimeline ts t f) t = (lookupTL ts t).map f := by
  unfold lookupTL updTimeline
  rw [find_map_keyInv]
  · cases h : ts.find? (fun p => p.1 == t) with
    | none => rfl
    | some p =>
      have hp : p.1 = t := by
        have h2 := List.find?_some h
        simpa using h2
      simp [hp]
  · intro p
    by_cases hp : (p.1 == t) = true <;> simp [hp]

/-- lookup of any other key after a point-wise update. -/
theorem lookupTL_upd_other (ts : List (Nat × STimeline)) (t t' : Nat) (f : STimeline → STimeline)
    (h : ¬ t' = t) : lookupTL (updTimeline ts t f) t' = lookupTL ts t' := by
  unfold lookupTL updTimeline
  rw [find_map_keyInv]
  · cases hf : ts.find? (fun p => p.1 == t') with
    | none => rfl
    | some p =>
      have hp : p.1 = t' := by
        have h2 := List.find?_some hf
        simpa using h2
      have hp2 : ¬ p.1 = t := by
        rw [hp]
        exact h
      simp [hp2]
  · intro p
    by_cases hp : (p.1 == t) = true <;> simp [hp]

/-- removing all waiters keeps the timeline entry, now with no waiters. -/
theorem removeAll_timelineAt_self (env : SyncEnv) (tid : Nat) :
    (env.removeAllWaitersEnv tid).timelineAt tid
      = (env.timelineAt tid).map (fun _ => { waiters := [] }) := by
  unfold SyncEnv.removeAllWaitersEnv
  rw [timelineAt_eq_lookupTL, timelineAt_eq_lookupTL]
  exact lookupTL_upd_self env.timelines tid (fun _ => { waiters := [] })

/-- removing all waiters of one timeline leaves every other untouched. -/
theorem removeAll_timelineAt_other (env : SyncEnv) (tid tid' : Nat) (h : ¬ tid' = tid) :
    (env.removeAllWaitersEnv tid).timelineAt tid' = env.timelineAt tid' := by
  unfold SyncEnv.removeAllWaitersEnv
  rw [timelineAt_eq_lookupTL, timelineAt_eq_lookupTL]
  exact lookupTL_upd_other env.timelines tid tid' (fun _ => { waiters := [] }) h

/-- expiry of a sync point only depends on the resources, which waiter
removal never touches. -/
theorem expired_step (env : SyncEnv) (q : SyncobjQueuedState) (s : CDRMSyncPointState) :
    s.expired (removeWaiterStep env q) = s.expired env := by
  unfold removeWaiterStep
  cases hqa : q.acquire with
  | none => rfl
  | some a =>
    by_cases hc : (q.hasBuffer && !a.expired env) = true
    · simp only [hc, if_true]
      cases a.timeline env <;> rfl
    · simp [hc]

/-- the timeline of a sync point only depends on the resources, which
waiter removal never touches. -/
theorem timeline_step (env : SyncEnv) (q : SyncobjQueuedState) (s : CDRMSyncPointState) :
    s.timeline (removeWaiterStep env q) = s.timeline env := by
  unfold removeWaiterStep
  cases hqa : q.acquire with
  | none => rfl
  | some a =>
    by_cases hc : (q.hasBuffer && !a.expired env) = true
    · simp only [hc, if_true]
      cases a.timeline env <;> rfl
    · simp [hc]

/-- a cleared timeline stays cleared under removing all waiters anywhere. -/
theorem ownsWaiterOn_removeAll_false (env : SyncEnv) (o tid tid2 : Nat)
    (h : ownsWaiterOn env o tid = false) :
    ownsWaiterOn (env.removeAllWaitersEnv tid2) o tid = false := by
  unfold ownsWaiterOn at h ⊢
  by_cases he : tid = tid2
  · subst he
    rw [removeAll_timelineAt_self]
    cases env.timelineAt tid <;> rfl
  · rw [removeAll_timelineAt_other env tid2 tid he]
    exact h

/-- one removal-loop step never creates a waiter. -/
theorem step_mono (env : SyncEnv) (q : SyncobjQueuedState) (o tid : Nat)
    (h : ownsWaiterOn env o tid = false) :
    ownsWaiterOn (removeWaiterStep env q) o tid = false := by
  unfold removeWaiterStep
  cases hqa : q.acquire with
  | none => exact h
  | some a =>
    by_cases hc : (q.hasBuffer && !a.expired env) = true
    · simp only [hc, if_true]
      cases a.timeline env with
      | none => exact h
      | some tid2 => exact ownsWaiterOn_removeAll_false env o tid tid2 h
    · simp only [hc, if_false]
      exact h

/-- the removal loop never creates a waiter. -/
theorem removeWaitersOf_mono : ∀ (qs : List SyncobjQueuedState) (env : SyncEnv) (o tid : Nat),
    ownsWaiterOn env o tid = false → ownsWaiterOn (removeWaitersOf env qs) o tid = false
  | [], _, _, _, h => h
  | q :: rest, env, o, tid, h =>
    removeWaitersOf_mono rest (removeWaiterStep env q) o tid (step_mono env q o tid h)

/-- once a timeline is cleared it cannot own waiters. -/
theorem ownsWaiterOn_of_clearedAt (env : SyncEnv) (o tid : Nat) (h : clearedAt env tid) :
    ownsWaiterOn env o tid = false := by
  unfold ownsWaiterOn
  cases he : env.timelineAt tid with
  | none => rfl
  | some tl => simp [h tl he]

/-- removing all of a timeline's waiters clears it. -/
theorem clearedAt_removeAll_self (env : SyncEnv) (tid : Nat) :
    clearedAt (env.removeAllWaitersEnv tid) tid := by
  intro tl h
  rw [removeAll_timelineAt_self] at h
  cases he : env.timelineAt tid with
  | none => rw [he] at h; simp at h
  | some tl0 =>
    rw [he] at h
    have h2 : some ({ waiters := [] } : STimeline) = some tl := h
    cases h2
    rfl

/-- a cleared timeline stays cleared through one removal-loop step. -/
theorem clearedAt_step (env : SyncEnv) (q : SyncobjQueuedState) (tid : Nat)
    (h : clearedAt env tid) : clearedAt (removeWaiterStep env q) tid := by
  unfold removeWaiterStep
  cases hqa : q.acquire with
  | none => exact h
  | some a =>
    by_cases hc : (q.hasBuffer && !a.expired env) = true
    · simp only [hc, if_true]
      cases ht : a.timeline env with
      | none => exact h
      | some tid2 =>
        intro tl hl
        by_cases he : tid = tid2
        · subst he
          exact clearedAt_removeAll_self env tid tl hl
        · rw [removeAll_timelineAt_other env tid2 tid he] at hl
          exact h tl hl
    · simp only [hc, if_false]
      exact h

/-- a cleared timeline stays cleared through the whole removal loop. -/
theorem clearedAt_removeWaitersOf : ∀ (qs : List SyncobjQueuedState) (env : SyncEnv) (tid : Nat),
    clearedAt env tid → clearedAt (removeWaitersOf env qs) tid
  | [], _, _, h => h
  | q :: rest, env, tid, h =>
    clearedAt_removeWaitersOf rest (removeWaiterStep env q) tid (clearedAt_step env q tid h)

/-- the removal loop clears the acquire timeline of every queued snapshot
whose acquire point is alive. -/
theorem removeWaitersOf_clears_member : ∀ (qs : List SyncobjQueuedState) (env : SyncEnv)
    (s : SyncobjQueuedState) (a : CDRMSyncPointState) (tid : Nat),
    s ∈ qs → s.hasBuffer = true → s.acquire = some a →
    a.expired env = false → a.timeline env = some tid →
    clearedAt (removeWaitersOf env qs) tid
  | [], _, s, _, _, hs, _, _, _, _ => absurd hs (List.not_mem_nil s)
  | q :: rest, env, s, a, tid, hs, hb, ha, hlive, htid => by
    rcases List.mem_cons.mp hs with he | hm
    · subst he
      have hstep : removeWaiterStep env s = env.removeAllWaitersEnv tid := by
        unfold removeWaiterStep
        rw [ha]
        simp [hb, hlive, htid]
      show clearedAt (removeWaitersOf (removeWaiterStep env s) rest) tid
      rw [hstep]
      exact clearedAt_removeWaitersOf rest _ tid (clearedAt_removeAll_self env tid)
    · exact removeWaitersOf_clears_member rest (removeWaiterStep env q) s a tid hm hb ha
        (by rw [expired_step]; exact hlive) (by rw [timeline_step]; exact htid)

/-- C10: when the syncobj adapter discards its queue through
`removeAllWaiters` (invoked on a null-buffer commit and on adapter
destruction), then for every queued snapshot holding a buffer with a
non-expired acquire point, the acquire point's entire timeline is purged:
afterwards that timeline's waiter list is empty, regardless of who
registered the waiters (other sync points or other surfaces sharing the
timeline), and the queue is cleared. -/
theorem C10_discard_purges_entire_timeline (env : SyncEnv) (ad : CDRMSyncobjSurfaceResource)
    (s : SyncobjQueuedState) (a : CDRMSyncPointState) (tid : Nat)
    (hs : s ∈ ad.pendingStates) (hb : s.hasBuffer = true) (ha : s.acquire = some a)
    (hlive : a.expired env = false) (htid : a.timeline env = some tid) :
    (∀ tl, (ad.removeAllWaiters env).1.timelineAt tid = some tl → tl.waiters = []) ∧
    (ad.removeAllWaiters env).2.pendingStates = [] :=
  ⟨removeWaitersOf_clears_member ad.pendingStates env s a tid hs hb ha hlive htid, rfl⟩

/-- C10 witness: timeline 0 holds a waiter of the queued snapshot (owner
100) and a waiter of an unrelated owner 200; discarding the queue leaves
timeline 0 with no waiters at all and the queue empty. -/
theorem C10_witness :
    (∀ tl, (adC10.removeAllWaiters envC10).1.timelineAt 0 = some tl → tl.waiters = []) ∧
    (adC10.removeAllWaiters envC10).2.pendingStates = [] :=
  C10_discard_purges_entire_timeline envC10 adC10 sC10 aC10 0 (by decide) rfl rfl
    (by decide) (by decide)

/-- C4 counterexample: the claim fails on a reachable state. Snapshot 100
is queued with a waiter at point 5 on timeline 0 (such a snapshot passes
validation with acquire 5 / release 6 on that timeline, and its releaser
keeps the kernel timeline alive); the timeline resource is then destroyed,
so the acquire point is expired. The discard loop (DRMSyncobj.cpp 162)
skips expired acquire points, so the null-buffer commit clears the queue
but does not remove snapshot 100's waiter: after the discard the
discarded snapshot still owns a waiter on the live timeline, whose
callback can still fire — contradicting "removes their acquire waiters"
and "no waiter callback for a discarded state fires afterward". -/
theorem C4_counterexample :
    aC4.expired wC4x.env = true ∧
    (surfacePrecommit wC4x).adapter.pendingStates = [] ∧
    (surfacePrecommit wC4x).surf.appliedLog = wC4x.surf.appliedLog ++ [wC4x.surf.pendingSid] ∧
    ownsWaiterOn (surfacePrecommit wC4x).env 100 0 = true := by
  decide

/-- C4 (amended): a commit that attaches a null buffer while commits are
queued takes the null-buffer precommit branch: the adapter queue is
discarded, the pending (null-buffer) state is committed immediately, and
for every queued snapshot whose acquire point is still live, that point's
entire timeline is purged of waiters, so no callback for such a snapshot
can fire afterwards. Snapshots whose acquire point has expired are skipped
by the discard loop, and their waiters may survive (see the
counterexample). -/
theorem C4_null_buffer_discards_live_waiters (w : SyncobjWorld)
    (h1 : w.surf.pendingBuffer = false) (h2 : w.surf.newBuffer = true)
    (h3 : w.surf.pendingTexture = false) :
    (surfacePrecommit w).adapter.pendingStates = [] ∧
    (surfacePrecommit w).surf.currentSid = w.surf.pendingSid ∧
    (surfacePrecommit w).surf.appliedLog = w.surf.appliedLog ++ [w.surf.pendingSid] ∧
    ∀ s ∈ w.adapter.pendingStates, ∀ a tid, s.hasBuffer = true → s.acquire = some a →
      a.expired w.env = false → a.timeline w.env = some tid →
      ∀ tl, (surfacePrecommit w).env.timelineAt tid = some tl → tl.waiters = [] := by
  have hbr : surfacePrecommit w =
      { env := removeWaitersOf w.env w.adapter.pendingStates,
        adapter := { w.adapter with pendingStates := [] },
        surf := commitPendingState w.surf w.surf.pendingSid } := by
    unfold surfacePrecommit
    rw [h1, h2, h3]
    rfl
  rw [hbr]
  refine ⟨rfl, rfl, rfl, ?_⟩
  intro s hs a tid hb ha hlive htid
  exact removeWaitersOf_clears_member w.adapter.pendingStates w.env s a tid hs hb ha hlive htid

/-- C4 witness: a null-buffer commit with one queued snapshot (owner 100,
acquire at point 5 on the live timeline 0, which also carries an unrelated
waiter of owner 200) discards the queue, commits the pending state, and
purges timeline 0 entirely. -/
theorem C4_witness :
    (surfacePrecommit wC4).adapter.pendingStates = [] ∧
    (surfacePrecommit wC4).surf.currentSid = wC4.surf.pendingSid ∧
    (surfacePrecommit wC4).surf.appliedLog = wC4.surf.appliedLog ++ [wC4.surf.pendingSid] ∧
    (∀ s ∈ wC4.adapter.pendingStates, ∀ a tid, s.hasBuffer = true → s.acquire = some a →
      a.expired wC4.env = false → a.timeline wC4.env = some tid →
      ∀ tl, (surfacePrecommit wC4).env.timelineAt tid = some tl → tl.waiters = []) :=
  C4_null_buffer_discards_live_waiters wC4 rfl rfl rfl

/-- C7 (amended): the staged acquire/release sync point values are consumed
only by a commit that takes the real-new-buffer precommit path: there, a
non-expired staged value is attached to the pending buffer and its slot is
cleared (whether or not validation then rejects the commit). The three
early-return paths — re-commit or first commit (no new buffer), and the
null-buffer commit — leave the staged slots untouched, so a value staged
before such a commit is carried across it and attached by the next
real-buffer commit. -/
theorem C7_staged_consumption (w : SyncobjWorld) (a r : CDRMSyncPointState)
    (hA : w.adapter.pendingAcquire = some a) (haL : a.expired w.env = false)
    (hR : w.adapter.pendingRelease = some r) (hrL : r.expired w.env = false) :
    (w.surf.pendingBuffer = true →
      (surfacePrecommit w).adapter.pendingAcquire = none ∧
      (surfacePrecommit w).adapter.pendingRelease = none ∧
      (surfacePrecommit w).surf.bufAcquire = some a ∧
      (surfacePrecommit w).surf.bufRelease = some r) ∧
    (w.surf.pendingBuffer = false → w.surf.newBuffer = false →
      (surfacePrecommit w).adapter.pendingAcquire = some a ∧
      (surfacePrecommit w).adapter.pendingRelease = some r) ∧
    (w.surf.pendingBuffer = false → w.surf.newBuffer = true → w.surf.pendingTexture = false →
      (surfacePrecommit w).adapter.pendingAcquire = some a ∧
      (surfacePrecommit w).adapter.pendingRelease = some r) := by
  have hpa : consumeStaged w.env w.adapter.pendingAcquire w.surf.bufAcquire = (some a, none) := by
    simp [consumeStaged, hA, haL]
  have hpr : consumeStaged w.env w.adapter.pendingRelease w.surf.bufRelease = (some r, none) := by
    simp [consumeStaged, hR, hrL]
  refine ⟨?_, ?_, ?_⟩
  · intro hp
    unfold surfacePrecommit
    rw [hp, hpa, hpr]
    by_cases hpe : (protocolError w.env
        { texture := w.surf.pendingTexture, bufAcquire := some a,
          bufRelease := some r, rejected := false }).1.isSome = true
    · simp [hpe]
    · simp [hpe]
  · intro hp hn
    unfold surfacePrecommit
    rw [hp, hn]
    by_cases hc : w.surf.currentBuffer = true
    · simp [hc, hA, hR]
    · simp [hc, hA, hR]
  · intro hp hn ht
    unfold surfacePrecommit
    rw [hp, hn, ht]
    simp [CDRMSyncobjSurfaceResource.removeAllWaiters, hA, hR]

/-- C7 counterexample: a staged acquire/release pair set before a commit
that takes the first-commit path is not consumed by that commit — the
slots still hold the values afterwards — and the next commit that attaches
a real buffer attaches exactly those values staged before the earlier,
unrelated commit; this falsifies both "cleared (consumed) exactly once per
commit" and "never carried across into a later, unrelated commit". -/
theorem C7_counterexample :
    (surfacePrecommit wC7).surf.appliedLog = [0] ∧
    (surfacePrecommit wC7).adapter.pendingAcquire = some stagedA ∧
    (surfacePrecommit wC7).adapter.pendingRelease = some stagedR ∧
    (surfacePrecommit (attachNewBuffer (surfacePrecommit wC7))).surf.bufAcquire = some stagedA ∧
    (surfacePrecommit (attachNewBuffer (surfacePrecommit wC7))).surf.bufRelease = some stagedR := by
  decide

/-- C7 witness: on a commit that does attach a real new buffer, both
non-expired staged values are attached to the buffer and both slots are
cleared. -/
theorem C7_witness :
    (surfacePrecommit (attachNewBuffer wC7)).adapter.pendingAcquire = none ∧
    (surfacePrecommit (attachNewBuffer wC7)).adapter.pendingRelease = none ∧
    (surfacePrecommit (attachNewBuffer wC7)).surf.bufAcquire = some stagedA ∧
    (surfacePrecommit (attachNewBuffer wC7)).surf.bufRelease = some stagedR :=
  (C7_staged_consumption (attachNewBuffer wC7) stagedA stagedR rfl (by decide) rfl
    (by decide)).1 rfl

/-- C1 counterexample: the syncobj adapter's own queue is not applied in
submission order. Snapshots 0 then 1 are queued, with acquire points on
two different timelines; the acquire signal of snapshot 1 fires first. The
adapter's waiter callback (DRMSyncobj.cpp 150-156) commits only its own
snapshot, so snapshot 1 is applied while the earlier snapshot 0 is still
queued and unapplied; after snapshot 0's signal fires too, the
application log is [1, 0] and `current` is snapshot 0, not snapshot 1 (the
last applied state in submission order) — falsifying the claim that every
earlier still-queued state is applied before a later one, and that
`current` always equals the last applied state in submission order. -/
theorem C1_counterexample :
    (syncobjAcquireFire wC1 1).surf.appliedLog = [1] ∧
    (syncobjAcquireFire wC1 1).adapter.pendingStates.map SyncobjQueuedState.sid = [0] ∧
    (syncobjAcquireFire (syncobjAcquireFire wC1 1) 0).surf.appliedLog = [1, 0] ∧
    (syncobjAcquireFire (syncobjAcquireFire wC1 1) 0).surf.currentSid = 0 ∧
    ¬ (syncobjAcquireFire (syncobjAcquireFire wC1 1) 0).surf.currentSid = 1 := by
  decide
